import Mathlib

/-!
Verification of the grid-sampling core of `ol-grid-sources`.

The embedding covers the numeric utilities (`clamp`, `quantize`, `dequantize`),
the extent-containment and interpolation-parameter factories from
`src/lib/factories.ts`, the bilinear interpolator from `src/lib/utils.ts`,
the stride/divisor selection of `BaseGridSource`, and the per-sample-point
logic of the three renderer variants (`ColorGrid`, `ArrowGrid`, `LabelGrid`).

Modelling conventions:
* JS numbers are modelled by `ℚ` (exact arithmetic in place of IEEE doubles).
* The IEEE `NaN` missing-data sentinel is modelled by `Option ℚ`: a grid entry
  of `none` stands for a `NaN` sample, and an out-of-range typed-array read
  (JS `undefined`) also yields `none`; both propagate to a `NaN` result
  through the interpolation arithmetic (`0 * NaN = NaN` in IEEE), which the
  `Option` match reproduces.
* The transcendental vector math of `ArrowGrid` (`Math.hypot`, `Math.atan2`)
  is modelled over `ℝ`.
-/

/-- Extent `[minX, minY, maxX, maxY]` in data-grid geographic space, destructured
exactly as in `createCheckExtentFunc` / `createCoordinateCalculator`. -/
structure Extent where
  minX : ℚ
  minY : ℚ
  maxX : ℚ
  maxY : ℚ

/-- `clamp` from `src/lib/utils.ts`: `Math.max(min, Math.min(max, value))`.
In `createCoordinateCalculator` it is only applied to integers. -/
def clamp (value lo hi : ℤ) : ℤ :=
  max lo (min hi value)

/-- The point-in-extent predicate built by `createCheckExtentFunc` in
`src/lib/factories.ts` (lines 42-53), including the date-line-crossing branch. -/
def createCheckExtentFunc (e : Extent) (lon lat : ℚ) : Bool :=
  if e.maxX < e.minX then
    decide (e.minY ≤ lat) && decide (lat ≤ e.maxY) &&
      (decide (e.minX ≤ lon) || decide (lon ≤ e.maxX))
  else
    decide (e.minX ≤ lon) && decide (lon ≤ e.maxX) &&
      decide (e.minY ≤ lat) && decide (lat ≤ e.maxY)

/-- `InterpolationParams` from `src/lib/factories.ts`: four flat neighbor
indices plus the two fractional offsets. -/
structure InterpolationParams where
  i11 : ℤ
  i12 : ℤ
  i21 : ℤ
  i22 : ℤ
  rx : ℚ
  ry : ℚ
deriving DecidableEq

/-- The interpolation-parameter calculator built by `createCoordinateCalculator`
in `src/lib/factories.ts` (lines 80-137).  The JS `dx / width || 1` default is
modelled as `if dx / width = 0 then 1 else dx / width` (for `width ≥ 1` the two
agree; JS division of a nonzero `dx` by `width = 0` would give `Infinity`,
which is outside the ℚ model, so theorems assume `1 ≤ width`).  The mutable
`out` scratch record only affects allocation, not values, so the model is the
pure value function. -/
def createCoordinateCalculator (width height : ℤ) (e : Extent) (lon lat : ℚ) :
    InterpolationParams :=
  let dx : ℚ := if e.maxX < e.minX then 180 - e.minX + (180 + e.maxX) else |e.maxX - e.minX|
  let dy : ℚ := |e.maxY - e.minY|
  let partX : ℚ := if dx / (width : ℚ) = 0 then 1 else dx / (width : ℚ)
  let partY : ℚ := if dy / (height : ℚ) = 0 then 1 else dy / (height : ℚ)
  let x : ℚ := if e.maxX < e.minX ∧ lon ≤ e.maxX then lon + 360 else lon
  let xCell : ℚ := (x - e.minX) / partX
  let yCell : ℚ := (lat - e.minY) / partY
  let xBase : ℤ := ⌊xCell⌋
  let yBaseFloor : ℤ := ⌊yCell⌋
  let yBaseCeil : ℤ := ⌈yCell⌉
  let x0 : ℤ := clamp xBase 0 (width - 1)
  let x1 : ℤ := clamp (xBase + 1) 0 (width - 1)
  let y0 : ℤ := clamp (height - 1 - yBaseCeil) 0 (height - 1)
  let y1 : ℤ := clamp (height - 1 - yBaseFloor) 0 (height - 1)
  { i11 := x0 + y1 * width
    i12 := x0 + y0 * width
    i21 := x1 + y1 * width
    i22 := x1 + y0 * width
    rx := xCell - (xBase : ℚ)
    ry := yCell - (yBaseFloor : ℚ) }

/-- A typed-array read `grid[i]`: `none` for a negative or past-the-end index
(JS `undefined`, which behaves as `NaN` in arithmetic) and the stored entry
otherwise (itself `none` when the stored sample is the `NaN` sentinel). -/
def gridRead (grid : List (Option ℚ)) (i : ℤ) : Option ℚ :=
  if 0 ≤ i then grid.getD i.toNat none else none

/-- Bilinear blend `interpolateGridValue` from `src/lib/utils.ts` (lines 71-86).
In IEEE arithmetic a `NaN` in any of the four reads propagates to the result
(even when its blend coefficient is zero, since `0 * NaN = NaN`); the `Option`
match returns `none` exactly in those cases. -/
def interpolateGridValue (grid : List (Option ℚ)) (p : InterpolationParams) :
    Option ℚ :=
  match gridRead grid p.i11, gridRead grid p.i21, gridRead grid p.i12,
      gridRead grid p.i22 with
  | some q11, some q21, some q12, some q22 =>
      some ((1 - p.ry) * ((1 - p.rx) * q11 + p.rx * q21) +
        p.ry * ((1 - p.rx) * q12 + p.rx * q22))
  | _, _, _, _ => none

/-- `quantize` from `src/lib/utils.ts`: `(value - range[0]) * 255 / (range[1] - range[0])`. -/
def quantize (value : ℚ) (range : ℚ × ℚ) : ℚ :=
  (value - range.1) * 255 / (range.2 - range.1)

/-- `dequantize` from `src/lib/utils.ts`: `byte * (range[1] - range[0]) / 255 + range[0]`. -/
def dequantize (byte : ℚ) (range : ℚ × ℚ) : ℚ :=
  byte * (range.2 - range.1) / 255 + range.1

/-- JS `Math.round` for the values that occur here: half-up rounding. -/
def jsRound (x : ℚ) : ℤ := ⌊x + 1 / 2⌋

/-- Divisor table passed by `ColorGrid` (the raster/heatmap renderer) to
`BaseGridSource`: `super(opts, [256, 128, 64, 32, 16])`. -/
def colorGridDivisors : List ℕ := [256, 128, 64, 32, 16]

/-- Divisor table passed by `ArrowGrid`: `super(opts, [16, 8, 4, 2, 1])`. -/
def arrowGridDivisors : List ℕ := [16, 8, 4, 2, 1]

/-- Divisor table passed by `LabelGrid`: `super(opts, [16, 8, 4, 2, 1])`. -/
def labelGridDivisors : List ℕ := [16, 8, 4, 2, 1]

/-- Index into the divisor table from `BaseGridSource`'s constructor:
`Math.max(0, Math.min(divisors.length - 1, spacingFactor - 1))`. -/
def divisorIdx (divisors : List ℕ) (spacingFactor : ℤ) : ℤ :=
  max 0 (min ((divisors.length : ℤ) - 1) (spacingFactor - 1))

/-- The selected divisor `divisors[divisorIdx]`. -/
def divisorOf (divisors : List ℕ) (spacingFactor : ℤ) : ℕ :=
  divisors.getD (divisorIdx divisors spacingFactor).toNat 0

/-- `gridStepX = Math.round(tileW / divisor)` from `BaseGridSource`. -/
def gridStep (tileW divisor : ℕ) : ℤ :=
  jsRound ((tileW : ℚ) / (divisor : ℚ))

/-- Iteration count of the sampling loop `for (i = 0; i < tileW; i += step)`,
fuel-bounded: for `step ≥ 1` the loop performs at most `tileW` iterations, so
`tileW` fuel is exact; `step = 0` would not terminate in JS. -/
def sampleLoopCount (tileW step : ℕ) : ℕ → ℕ → ℕ
  | 0, _ => 0
  | fuel + 1, i => if i < tileW then sampleLoopCount tileW step fuel (i + step) + 1 else 0

/-- Number of sample positions along one axis of a tile. -/
def sampleCount1D (tileW step : ℕ) : ℕ :=
  sampleLoopCount tileW step tileW 0

/-- Number of sample points in one tile for a given divisor table and
spacing-factor selection (square `tileW × tileH` loop of `loadTile`). -/
def totalSamples (tileW tileH : ℕ) (divisors : List ℕ) (sf : ℤ) : ℕ :=
  sampleCount1D tileW (gridStep tileW (divisorOf divisors sf)).toNat *
    sampleCount1D tileH (gridStep tileH (divisorOf divisors sf)).toNat

/-- Per-sample-point core of `ColorGrid.loadTile` (lines 75-84 of the source):
interpolate, skip the point (`none`) on `NaN`, otherwise `Math.round` the raw
byte for the pixel block fill. -/
def colorTileSample (data : List (Option ℚ)) (p : InterpolationParams) : Option ℤ :=
  match interpolateGridValue data p with
  | none => none
  | some raw => some (jsRound raw)

/-- Value part of `ColorGrid.getDataAtCoordinate`: `null` (`none`) on `NaN`,
otherwise the raw byte dequantized through `extremes` when those are set. -/
def colorPointValue (data : List (Option ℚ)) (p : InterpolationParams)
    (extremes : Option (ℚ × ℚ)) : Option ℚ :=
  match interpolateGridValue data p with
  | none => none
  | some raw =>
      match extremes with
      | some ex => some (dequantize raw ex)
      | none => some raw

/-- `ColorGrid.getDataAtCoordinate` (lines 108-125): transform the map
coordinate, compute interpolation parameters (no extent check is performed),
interpolate and dequantize. -/
def colorGetDataAtCoordinate (tr : ℚ × ℚ → ℚ × ℚ) (width height : ℤ) (e : Extent)
    (data : List (Option ℚ)) (extremes : Option (ℚ × ℚ)) (coord : ℚ × ℚ) : Option ℚ :=
  let ll := tr coord
  colorPointValue data (createCoordinateCalculator width height e ll.1 ll.2) extremes

/-- `Math.hypot` on two arguments. -/
noncomputable def hypot (a b : ℝ) : ℝ := Real.sqrt (a * a + b * b)

open Classical in
/-- `Math.atan2 (y, x)` (signed zeros aside, which ℝ cannot distinguish). -/
noncomputable def atan2 (y x : ℝ) : ℝ :=
  if 0 < x then Real.arctan (y / x)
  else if x < 0 then
    (if 0 ≤ y then Real.arctan (y / x) + Real.pi else Real.arctan (y / x) - Real.pi)
  else if 0 < y then Real.pi / 2
  else if y < 0 then -(Real.pi / 2)
  else 0

/-- The `{u, v, speed, angle}` record of `ArrowGrid`. -/
structure ArrowData where
  u : ℝ
  v : ℝ
  speed : ℝ
  angle : ℝ

open Classical in
/-- Per-sample-point core of `ArrowGrid.loadTile` (lines 178-208): interpolate
both channels, skip on `NaN`, dequantize, compute `speed = hypot(u, v)`, skip
when `speed < speedThreshold`, else emit the glyph data with
`angle = atan2(-v, u)`. -/
noncomputable def arrowSample (uGrid vGrid : List (Option ℚ)) (p : InterpolationParams)
    (extremes : ℚ × ℚ) (speedThreshold : ℝ) : Option ArrowData :=
  match interpolateGridValue uGrid p, interpolateGridValue vGrid p with
  | some uRaw, some vRaw =>
      let u : ℝ := ((dequantize uRaw extremes : ℚ) : ℝ)
      let v : ℝ := ((dequantize vRaw extremes : ℚ) : ℝ)
      let speed : ℝ := hypot u v
      if speed < speedThreshold then none
      else some { u := u, v := v, speed := speed, angle := atan2 (-v) u }
  | _, _ => none

/-- `ArrowGrid.getVectorAtCoordinate` (lines 232-258): transform, compute
parameters (no extent check), interpolate both channels, `null` on `NaN`,
else return `{u, v, speed, angle}`. -/
noncomputable def getVectorAtCoordinate (tr : ℚ × ℚ → ℚ × ℚ) (width height : ℤ)
    (e : Extent) (uGrid vGrid : List (Option ℚ)) (extremes : ℚ × ℚ)
    (coord : ℚ × ℚ) : Option ArrowData :=
  let ll := tr coord
  let params := createCoordinateCalculator width height e ll.1 ll.2
  match interpolateGridValue uGrid params, interpolateGridValue vGrid params with
  | some uRaw, some vRaw =>
      let u : ℝ := ((dequantize uRaw extremes : ℚ) : ℝ)
      let v : ℝ := ((dequantize vRaw extremes : ℚ) : ℝ)
      some { u := u, v := v, speed := hypot u v, angle := atan2 (-v) u }
  | _, _ => none

/-- `LabelGrid`'s per-channel range selection:
`const range = isMultiExtremes ? ranges[k] : ranges[0]` — a single shared pair
(`Sum.inl`) is broadcast to every channel, a list (`Sum.inr`) is indexed by the
channel (a missing entry is a malformed configuration, modelled `none`). -/
def labelRangeFor (extremes : Sum (ℚ × ℚ) (List (ℚ × ℚ))) (k : ℕ) : Option (ℚ × ℚ) :=
  match extremes with
  | Sum.inl ex => some ex
  | Sum.inr l => l.get? k

/-- The `data.map((grid, index) => ...)` loop of `LabelGrid.getDataAtCoordinate`
(lines 282-287), carrying the channel index: `NaN` (`none`) per channel when
interpolation misses, else the dequantized value. -/
def labelChannels (p : InterpolationParams) (extremes : Sum (ℚ × ℚ) (List (ℚ × ℚ))) :
    ℕ → List (List (Option ℚ)) → List (Option ℚ)
  | _, [] => []
  | k, g :: rest =>
      (match interpolateGridValue g p with
        | none => none
        | some raw => (labelRangeFor extremes k).map fun range => dequantize raw range) ::
        labelChannels p extremes (k + 1) rest

/-- `LabelGrid.getDataAtCoordinate` (lines 264-288): transform, compute
parameters (no extent check), dequantize each channel with per-channel `NaN`
markers. -/
def labelGetDataAtCoordinate (tr : ℚ × ℚ → ℚ × ℚ) (width height : ℤ) (e : Extent)
    (data : List (List (Option ℚ))) (extremes : Sum (ℚ × ℚ) (List (ℚ × ℚ)))
    (coord : ℚ × ℚ) : List (Option ℚ) :=
  let ll := tr coord
  labelChannels (createCoordinateCalculator width height e ll.1 ll.2) extremes 0 data

/-- The interpolation-parameter algorithm as the specification words it
(§4.3 steps 1-6): longitude normalization for wrapping extents, fractional
cell coordinates with cell sizes defaulting to 1 on a degenerate axis,
floor/floor+1 columns and floor/ceil rows converted through `height - 1 - row`,
all clamped, flat corner indices, and the fractional offsets. -/
def specCoordinateCalculator (width height : ℤ) (e : Extent) (lon lat : ℚ) :
    InterpolationParams :=
  let wraps := e.maxX < e.minX
  let span : ℚ := if wraps then 180 - e.minX + (180 + e.maxX) else |e.maxX - e.minX|
  let vspan : ℚ := |e.maxY - e.minY|
  let cellWidth : ℚ := if span = 0 then 1 else span / (width : ℚ)
  let cellHeight : ℚ := if vspan = 0 then 1 else vspan / (height : ℚ)
  let lonAdj : ℚ := if wraps ∧ lon ≤ e.maxX then lon + 360 else lon
  let xCell : ℚ := (lonAdj - e.minX) / cellWidth
  let yCell : ℚ := (lat - e.minY) / cellHeight
  let x0 : ℤ := clamp ⌊xCell⌋ 0 (width - 1)
  let x1 : ℤ := clamp (⌊xCell⌋ + 1) 0 (width - 1)
  let y0 : ℤ := clamp (height - 1 - ⌈yCell⌉) 0 (height - 1)
  let y1 : ℤ := clamp (height - 1 - ⌊yCell⌋) 0 (height - 1)
  { i11 := x0 + y1 * width
    i12 := x0 + y0 * width
    i21 := x1 + y1 * width
    i22 := x1 + y0 * width
    rx := xCell - (⌊xCell⌋ : ℚ)
    ry := yCell - (⌊yCell⌋ : ℚ) }

/-- C2: `createCheckExtentFunc` decides containment as specified: the
non-wrapping case is the conjunction of the four range comparisons, the
wrapping case is the latitude range check conjoined with the longitude
disjunction; for the wrapping extent `[170, -10, -170, 10]`, `lon = 175` and
`lon = -175` (at `lat = 0`) are contained and `lon = 0` is not. -/
theorem checkExtent_spec (e : Extent) (lon lat : ℚ) :
    (e.minX ≤ e.maxX →
      (createCheckExtentFunc e lon lat = true ↔
        e.minX ≤ lon ∧ lon ≤ e.maxX ∧ e.minY ≤ lat ∧ lat ≤ e.maxY)) ∧
    (e.maxX < e.minX →
      (createCheckExtentFunc e lon lat = true ↔
        e.minY ≤ lat ∧ lat ≤ e.maxY ∧ (e.minX ≤ lon ∨ lon ≤ e.maxX))) ∧
    createCheckExtentFunc ⟨170, -10, -170, 10⟩ 175 0 = true ∧
    createCheckExtentFunc ⟨170, -10, -170, 10⟩ (-175) 0 = true ∧
    createCheckExtentFunc ⟨170, -10, -170, 10⟩ 0 0 = false := by
  refine ⟨fun h => ?_, fun h => ?_, by decide, by decide, by decide⟩
  · rw [createCheckExtentFunc, if_neg (not_lt.mpr h)]
    simp [and_assoc]
  · rw [createCheckExtentFunc, if_pos h]
    simp [and_assoc]

/-- Witness for `checkExtent_spec` at a concrete non-wrapping extent. -/
theorem checkExtent_spec_witness :
    createCheckExtentFunc ⟨0, 0, 10, 10⟩ 5 5 = true :=
  ((checkExtent_spec ⟨0, 0, 10, 10⟩ 5 5).1 (by norm_num)).mpr (by norm_num)

/-- C6: for a degenerate value range (`max = min`), `dequantize` returns the
min value for every byte input: `byte * (m - m) / 255 + m = m` involves no
division by the zero span, so (matching the IEEE evaluation, where
`byte * 0 / 255 = 0` exactly for a finite byte) the result is exactly `m`,
never an infinity or `NaN`. -/
theorem dequantize_degenerate (b m : ℚ) : dequantize b (m, m) = m := by
  simp [dequantize]

/-- Unfolding of the bilinear blend when all four neighbor reads are defined. -/
theorem interpolate_of_reads (grid : List (Option ℚ)) (p : InterpolationParams)
    (a b c d : ℚ)
    (h11 : gridRead grid p.i11 = some a) (h21 : gridRead grid p.i21 = some b)
    (h12 : gridRead grid p.i12 = some c) (h22 : gridRead grid p.i22 = some d) :
    interpolateGridValue grid p =
      some ((1 - p.ry) * ((1 - p.rx) * a + p.rx * b) +
        p.ry * ((1 - p.rx) * c + p.rx * d)) := by
  unfold interpolateGridValue
  rw [h11, h21, h12, h22]

/-- C5: `quantize` and `dequantize` are mutual inverses under the affine map —
exact over the rationals for every non-degenerate range and every value in it —
and concretely `quantize 0 [-50, 50] = 127.5` while `dequantize 128 [-50, 50]`
is `10/51 ≈ 0.196`. -/
theorem quantize_dequantize_roundtrip (lo hi v : ℚ) (hlt : lo < hi)
    (hv1 : lo ≤ v) (hv2 : v ≤ hi) :
    dequantize (quantize v (lo, hi)) (lo, hi) = v ∧
    quantize 0 (-50, 50) = 255 / 2 ∧
    dequantize 128 (-50, 50) = 10 / 51 ∧
    |dequantize 128 (-50, 50) - 196 / 1000| < 1 / 1000 := by
  refine ⟨?_, by norm_num [quantize], by norm_num [dequantize],
    by norm_num [dequantize, abs_lt]⟩
  have hne : hi - lo ≠ 0 := sub_ne_zero.mpr (ne_of_gt hlt)
  unfold quantize dequantize
  field_simp

/-- Witness for `quantize_dequantize_roundtrip` at `v = 20`, range `[-50, 50]`. -/
theorem quantize_dequantize_roundtrip_witness :
    dequantize (quantize 20 (-50, 50)) (-50, 50) = 20 :=
  (quantize_dequantize_roundtrip (-50) 50 20 (by norm_num) (by norm_num)
    (by norm_num)).1

/-- C3: a missing-data sentinel (`none`, the model of a `NaN` byte — or an
out-of-range read) in any of the four interpolation neighbors makes
`interpolateGridValue` return the not-a-number signal, and that missing value
propagates as "no value": the raster tile renderer's per-point sample is
skipped and the point query reports `null`, with no error and no interpolation
across the hole. -/
theorem interpolate_nan_propagates (grid : List (Option ℚ)) (p : InterpolationParams)
    (extremes : Option (ℚ × ℚ))
    (h : gridRead grid p.i11 = none ∨ gridRead grid p.i12 = none ∨
      gridRead grid p.i21 = none ∨ gridRead grid p.i22 = none) :
    interpolateGridValue grid p = none ∧
    colorTileSample grid p = none ∧
    colorPointValue grid p extremes = none := by
  have hmain : interpolateGridValue grid p = none := by
    unfold interpolateGridValue
    rcases h with h | h | h | h <;> rw [h] <;>
      cases gridRead grid p.i11 <;> cases gridRead grid p.i21 <;>
      cases gridRead grid p.i12 <;> cases gridRead grid p.i22 <;> rfl
  refine ⟨hmain, ?_, ?_⟩
  · unfold colorTileSample
    rw [hmain]
  · unfold colorPointValue
    rw [hmain]

/-- Witness for `interpolate_nan_propagates`: a 2×2 grid whose node 3 is the
sentinel, with parameters pointing at that node. -/
theorem interpolate_nan_propagates_witness :
    interpolateGridValue [some 1, some 2, some 3, none] ⟨0, 1, 2, 3, 0, 0⟩ = none ∧
    colorTileSample [some 1, some 2, some 3, none] ⟨0, 1, 2, 3, 0, 0⟩ = none ∧
    colorPointValue [some 1, some 2, some 3, none] ⟨0, 1, 2, 3, 0, 0⟩ none = none :=
  interpolate_nan_propagates [some 1, some 2, some 3, none] ⟨0, 1, 2, 3, 0, 0⟩
    none (Or.inr (Or.inr (Or.inr (by decide))))

/-- C8: when the fractional offsets sit at the boundary values the bilinear
blend collapses to the single corner sample: with `rx, ry ∈ {0, 1}` the
interpolated result is exactly the byte stored at the selected node
(`i11`, `i21`, `i12`, `i22` respectively). -/
theorem interpolate_at_node (grid : List (Option ℚ)) (p : InterpolationParams)
    (a b c d : ℚ)
    (h11 : gridRead grid p.i11 = some a) (h21 : gridRead grid p.i21 = some b)
    (h12 : gridRead grid p.i12 = some c) (h22 : gridRead grid p.i22 = some d) :
    (p.rx = 0 → p.ry = 0 → interpolateGridValue grid p = some a) ∧
    (p.rx = 1 → p.ry = 0 → interpolateGridValue grid p = some b) ∧
    (p.rx = 0 → p.ry = 1 → interpolateGridValue grid p = some c) ∧
    (p.rx = 1 → p.ry = 1 → interpolateGridValue grid p = some d) := by
  refine ⟨fun hx hy => ?_, fun hx hy => ?_, fun hx hy => ?_, fun hx hy => ?_⟩ <;>
    rw [interpolate_of_reads grid p a b c d h11 h21 h12 h22, hx, hy] <;>
    norm_num

/-- Witness for `interpolate_at_node`: at `rx = ry = 0` the value of node
`i11 = 0` is returned exactly. -/
theorem interpolate_at_node_witness :
    interpolateGridValue [some 5, some 6, some 7, some 8] ⟨0, 2, 1, 3, 0, 0⟩ = some 5 :=
  (interpolate_at_node [some 5, some 6, some 7, some 8] ⟨0, 2, 1, 3, 0, 0⟩
    5 6 7 8 (by decide) (by decide) (by decide) (by decide)).1 rfl rfl

/-- C1: the calculator built by `createCoordinateCalculator` follows the
specified algorithm at every input coordinate — the longitude wrap
normalization, the fractional cell coordinates with per-axis degenerate
defaults, the clamped floor/floor+1 columns, the clamped
`height - 1 - floor/ceil` rows, and the fractional offsets — i.e. it agrees
with the algorithm transcribed from the spec's words
(`specCoordinateCalculator`) for every grid with `width, height ≥ 1`. -/
theorem coordinateCalculator_follows_spec (width height : ℤ) (e : Extent)
    (lon lat : ℚ) (hw : 1 ≤ width) (hh : 1 ≤ height) :
    createCoordinateCalculator width height e lon lat =
      specCoordinateCalculator width height e lon lat := by
  have hw0 : (width : ℚ) ≠ 0 := Int.cast_ne_zero.mpr (by omega)
  have hh0 : (height : ℚ) ≠ 0 := Int.cast_ne_zero.mpr (by omega)
  have hx : ∀ d : ℚ,
      (if d / (width : ℚ) = 0 then (1 : ℚ) else d / (width : ℚ)) =
        (if d = 0 then (1 : ℚ) else d / (width : ℚ)) := by
    intro d
    rcases eq_or_ne d 0 with h | h
    · simp [h]
    · rw [if_neg, if_neg h]
      simp [div_eq_zero_iff, h, hw0]
  have hy : ∀ d : ℚ,
      (if d / (height : ℚ) = 0 then (1 : ℚ) else d / (height : ℚ)) =
        (if d = 0 then (1 : ℚ) else d / (height : ℚ)) := by
    intro d
    rcases eq_or_ne d 0 with h | h
    · simp [h]
    · rw [if_neg, if_neg h]
      simp [div_eq_zero_iff, h, hh0]
  simp only [createCoordinateCalculator, specCoordinateCalculator, hx, hy]

/-- Witness for `coordinateCalculator_follows_spec` on a 4×3 grid. -/
theorem coordinateCalculator_follows_spec_witness :
    createCoordinateCalculator 4 3 ⟨-180, -90, 180, 90⟩ 17 (-33) =
      specCoordinateCalculator 4 3 ⟨-180, -90, 180, 90⟩ 17 (-33) :=
  coordinateCalculator_follows_spec 4 3 ⟨-180, -90, 180, 90⟩ 17 (-33)
    (by norm_num) (by norm_num)

/-- `clamp` never goes below the lower bound. -/
theorem clamp_lb (value lo hi : ℤ) : lo ≤ clamp value lo hi :=
  le_max_left lo (min hi value)

/-- `clamp` never exceeds the upper bound when the bounds are ordered. -/
theorem clamp_ub (value lo hi : ℤ) (h : lo ≤ hi) : clamp value lo hi ≤ hi :=
  max_le h (min_le_left hi value)

/-- Shape of the record produced by `createCoordinateCalculator`: every field
is built from the clamped floor/ceil of the two fractional cell coordinates. -/
theorem createCoordinateCalculator_shape (width height : ℤ) (e : Extent)
    (lon lat : ℚ) :
    ∃ xc yc : ℚ,
      (createCoordinateCalculator width height e lon lat).i11 =
          clamp ⌊xc⌋ 0 (width - 1) + clamp (height - 1 - ⌊yc⌋) 0 (height - 1) * width ∧
        (createCoordinateCalculator width height e lon lat).i12 =
          clamp ⌊xc⌋ 0 (width - 1) + clamp (height - 1 - ⌈yc⌉) 0 (height - 1) * width ∧
        (createCoordinateCalculator width height e lon lat).i21 =
          clamp (⌊xc⌋ + 1) 0 (width - 1) + clamp (height - 1 - ⌊yc⌋) 0 (height - 1) * width ∧
        (createCoordinateCalculator width height e lon lat).i22 =
          clamp (⌊xc⌋ + 1) 0 (width - 1) + clamp (height - 1 - ⌈yc⌉) 0 (height - 1) * width ∧
        (createCoordinateCalculator width height e lon lat).rx = xc - (⌊xc⌋ : ℚ) ∧
        (createCoordinateCalculator width height e lon lat).ry = yc - (⌊yc⌋ : ℚ) :=
  ⟨_, _, rfl, rfl, rfl, rfl, rfl, rfl⟩

/-- A clamped flat corner index is a valid buffer index. -/
theorem flatIndex_bounds (x y width height : ℤ) (hx0 : 0 ≤ x) (hx1 : x ≤ width - 1)
    (hy0 : 0 ≤ y) (hy1 : y ≤ height - 1) :
    0 ≤ x + y * width ∧ x + y * width ≤ width * height - 1 := by
  constructor
  · have : 0 ≤ y * width := mul_nonneg hy0 (by omega)
    omega
  · have hyw : y * width ≤ (height - 1) * width :=
      mul_le_mul_of_nonneg_right hy1 (by omega)
    nlinarith

/-- Bounds for all four corner indices and both offsets of the computed
parameter record, for any grid with `width, height ≥ 1`. -/
theorem calcParams_bounds (width height : ℤ) (e : Extent) (lon lat : ℚ)
    (hw : 1 ≤ width) (hh : 1 ≤ height) :
    (0 ≤ (createCoordinateCalculator width height e lon lat).i11 ∧
        (createCoordinateCalculator width height e lon lat).i11 ≤ width * height - 1) ∧
      (0 ≤ (createCoordinateCalculator width height e lon lat).i12 ∧
        (createCoordinateCalculator width height e lon lat).i12 ≤ width * height - 1) ∧
      (0 ≤ (createCoordinateCalculator width height e lon lat).i21 ∧
        (createCoordinateCalculator width height e lon lat).i21 ≤ width * height - 1) ∧
      (0 ≤ (createCoordinateCalculator width height e lon lat).i22 ∧
        (createCoordinateCalculator width height e lon lat).i22 ≤ width * height - 1) ∧
      (0 ≤ (createCoordinateCalculator width height e lon lat).rx ∧
        (createCoordinateCalculator width height e lon lat).rx ≤ 1) ∧
      (0 ≤ (createCoordinateCalculator width height e lon lat).ry ∧
        (createCoordinateCalculator width height e lon lat).ry ≤ 1) := by
  obtain ⟨xc, yc, h11, h12, h21, h22, hrx, hry⟩ :=
    createCoordinateCalculator_shape width height e lon lat
  have hwx : (0 : ℤ) ≤ width - 1 := by omega
  have hhy : (0 : ℤ) ≤ height - 1 := by omega
  refine ⟨?_, ?_, ?_, ?_, ?_, ?_⟩
  · rw [h11]
    exact flatIndex_bounds _ _ width height (clamp_lb _ _ _) (clamp_ub _ _ _ hwx)
      (clamp_lb _ _ _) (clamp_ub _ _ _ hhy)
  · rw [h12]
    exact flatIndex_bounds _ _ width height (clamp_lb _ _ _) (clamp_ub _ _ _ hwx)
      (clamp_lb _ _ _) (clamp_ub _ _ _ hhy)
  · rw [h21]
    exact flatIndex_bounds _ _ width height (clamp_lb _ _ _) (clamp_ub _ _ _ hwx)
      (clamp_lb _ _ _) (clamp_ub _ _ _ hhy)
  · rw [h22]
    exact flatIndex_bounds _ _ width height (clamp_lb _ _ _) (clamp_ub _ _ _ hwx)
      (clamp_lb _ _ _) (clamp_ub _ _ _ hhy)
  · rw [hrx]
    constructor
    · linarith [Int.floor_le xc]
    · linarith [Int.lt_floor_add_one xc]
  · rw [hry]
    constructor
    · linarith [Int.floor_le yc]
    · linarith [Int.lt_floor_add_one yc]

/-- C7: the parameter record computed by the calculator satisfies the data-model
invariant for every grid with `width, height ≥ 1`, every extent with
`minLat ≤ maxLat`, and every input coordinate: the four flat neighbor indices
lie in `[0, width*height - 1]` (edge duplication through clamping, never
wraparound) and the fractional offsets satisfy `rx, ry ∈ [0, 1]`. -/
theorem calcParams_invariant (width height : ℤ) (e : Extent) (lon lat : ℚ)
    (p : InterpolationParams) (hw : 1 ≤ width) (hh : 1 ≤ height)
    (hlat : e.minY ≤ e.maxY)
    (hp : p = createCoordinateCalculator width height e lon lat) :
    (0 ≤ p.i11 ∧ p.i11 ≤ width * height - 1) ∧
      (0 ≤ p.i12 ∧ p.i12 ≤ width * height - 1) ∧
      (0 ≤ p.i21 ∧ p.i21 ≤ width * height - 1) ∧
      (0 ≤ p.i22 ∧ p.i22 ≤ width * height - 1) ∧
      (0 ≤ p.rx ∧ p.rx ≤ 1) ∧
      (0 ≤ p.ry ∧ p.ry ≤ 1) := by
  subst hp
  exact calcParams_bounds width height e lon lat hw hh

/-- Witness for `calcParams_invariant` on a 3×2 grid with a coordinate far
outside the extent. -/
theorem calcParams_invariant_witness :
    (0 ≤ (createCoordinateCalculator 3 2 ⟨0, 0, 30, 20⟩ 500 (-500)).i11 ∧
        (createCoordinateCalculator 3 2 ⟨0, 0, 30, 20⟩ 500 (-500)).i11 ≤ 3 * 2 - 1) ∧
      (0 ≤ (createCoordinateCalculator 3 2 ⟨0, 0, 30, 20⟩ 500 (-500)).i12 ∧
        (createCoordinateCalculator 3 2 ⟨0, 0, 30, 20⟩ 500 (-500)).i12 ≤ 3 * 2 - 1) ∧
      (0 ≤ (createCoordinateCalculator 3 2 ⟨0, 0, 30, 20⟩ 500 (-500)).i21 ∧
        (createCoordinateCalculator 3 2 ⟨0, 0, 30, 20⟩ 500 (-500)).i21 ≤ 3 * 2 - 1) ∧
      (0 ≤ (createCoordinateCalculator 3 2 ⟨0, 0, 30, 20⟩ 500 (-500)).i22 ∧
        (createCoordinateCalculator 3 2 ⟨0, 0, 30, 20⟩ 500 (-500)).i22 ≤ 3 * 2 - 1) ∧
      (0 ≤ (createCoordinateCalculator 3 2 ⟨0, 0, 30, 20⟩ 500 (-500)).rx ∧
        (createCoordinateCalculator 3 2 ⟨0, 0, 30, 20⟩ 500 (-500)).rx ≤ 1) ∧
      (0 ≤ (createCoordinateCalculator 3 2 ⟨0, 0, 30, 20⟩ 500 (-500)).ry ∧
        (createCoordinateCalculator 3 2 ⟨0, 0, 30, 20⟩ 500 (-500)).ry ≤ 1) :=
  calcParams_invariant 3 2 ⟨0, 0, 30, 20⟩ 500 (-500) _ (by norm_num) (by norm_num)
    (by norm_num) rfl

/-- A length-5 divisor table is always indexed at one of its five entries. -/
theorem divisorIdx_five (d : List ℕ) (hd : d.length = 5) (s : ℤ) :
    divisorIdx d s = 0 ∨ divisorIdx d s = 1 ∨ divisorIdx d s = 2 ∨
      divisorIdx d s = 3 ∨ divisorIdx d s = 4 := by
  unfold divisorIdx
  rw [hd]
  omega

/-- Evaluation scheme for the per-tile sample count on a 256×256 tile. -/
theorem totalSamples_eval (d : List ℕ) (s : ℤ) (dv st cnt : ℕ)
    (hdv : divisorOf d s = dv) (hst : gridStep 256 dv = (st : ℤ))
    (hcnt : sampleCount1D 256 st = cnt) :
    totalSamples 256 256 d s = cnt * cnt := by
  unfold totalSamples
  rw [hdv, hst, Int.toNat_natCast, hcnt]

set_option maxRecDepth 4000 in
/-- On a 256×256 tile the label/arrow divisor table yields, per selected index,
16², 8², 4², 2² or 1² sample points. -/
theorem totalSamples_label_mem (s : ℤ) :
    totalSamples 256 256 labelGridDivisors s = 256 ∨
      totalSamples 256 256 labelGridDivisors s = 64 ∨
      totalSamples 256 256 labelGridDivisors s = 16 ∨
      totalSamples 256 256 labelGridDivisors s = 4 ∨
      totalSamples 256 256 labelGridDivisors s = 1 := by
  rcases divisorIdx_five labelGridDivisors (by decide) s with h | h | h | h | h
  · exact Or.inl (totalSamples_eval _ s 16 16 16
      (by unfold divisorOf; rw [h]; decide) (by norm_num [gridStep, jsRound]) (by decide))
  · exact Or.inr (Or.inl (totalSamples_eval _ s 8 32 8
      (by unfold divisorOf; rw [h]; decide) (by norm_num [gridStep, jsRound]) (by decide)))
  · exact Or.inr (Or.inr (Or.inl (totalSamples_eval _ s 4 64 4
      (by unfold divisorOf; rw [h]; decide) (by norm_num [gridStep, jsRound]) (by decide))))
  · exact Or.inr (Or.inr (Or.inr (Or.inl (totalSamples_eval _ s 2 128 2
      (by unfold divisorOf; rw [h]; decide) (by norm_num [gridStep, jsRound]) (by decide)))))
  · exact Or.inr (Or.inr (Or.inr (Or.inr (totalSamples_eval _ s 1 256 1
      (by unfold divisorOf; rw [h]; decide) (by norm_num [gridStep, jsRound]) (by decide)))))

set_option maxRecDepth 4000 in
/-- On a 256×256 tile the raster divisor table yields, per selected index,
256², 128², 64², 32² or 16² sample points. -/
theorem totalSamples_color_mem (s : ℤ) :
    totalSamples 256 256 colorGridDivisors s = 65536 ∨
      totalSamples 256 256 colorGridDivisors s = 16384 ∨
      totalSamples 256 256 colorGridDivisors s = 4096 ∨
      totalSamples 256 256 colorGridDivisors s = 1024 ∨
      totalSamples 256 256 colorGridDivisors s = 256 := by
  rcases divisorIdx_five colorGridDivisors (by decide) s with h | h | h | h | h
  · exact Or.inl (totalSamples_eval _ s 256 1 256
      (by unfold divisorOf; rw [h]; decide) (by norm_num [gridStep, jsRound]) (by decide))
  · exact Or.inr (Or.inl (totalSamples_eval _ s 128 2 128
      (by unfold divisorOf; rw [h]; decide) (by norm_num [gridStep, jsRound]) (by decide)))
  · exact Or.inr (Or.inr (Or.inl (totalSamples_eval _ s 64 4 64
      (by unfold divisorOf; rw [h]; decide) (by norm_num [gridStep, jsRound]) (by decide))))
  · exact Or.inr (Or.inr (Or.inr (Or.inl (totalSamples_eval _ s 32 8 32
      (by unfold divisorOf; rw [h]; decide) (by norm_num [gridStep, jsRound]) (by decide)))))
  · exact Or.inr (Or.inr (Or.inr (Or.inr (totalSamples_eval _ s 16 16 16
      (by unfold divisorOf; rw [h]; decide) (by norm_num [gridStep, jsRound]) (by decide)))))

set_option maxRecDepth 4000 in
/-- C4 counterexample: the claim fails on the code.  The raster renderer
(`ColorGrid`) passes the divisor table `[256, 128, 64, 32, 16]`, not
`{16, 8, 4, 2, 1}`; and in the `{16, 8, 4, 2, 1}` table the divisor 1
(selection 5) gives `gridStep = tileW`, hence a single sample point per
256×256 tile — not `tileW * tileH` sample points. -/
theorem spacing_selection_counterexample :
    colorGridDivisors ≠ [16, 8, 4, 2, 1] ∧
    divisorOf labelGridDivisors 5 = 1 ∧
    totalSamples 256 256 labelGridDivisors 5 = 1 ∧
    (1 : ℕ) ≠ 256 * 256 := by
  refine ⟨by decide, by decide, ?_, by decide⟩
  have h := totalSamples_eval labelGridDivisors 5 1 256 1 (by decide)
    (by norm_num [gridStep, jsRound]) (by decide)
  simpa using h

set_option maxRecDepth 4000 in
/-- C4 (amended): the divisor table is `{16, 8, 4, 2, 1}` for the arrow and
label renderers and `{256, 128, 64, 32, 16}` for the raster renderer;
selection `s` picks table index `clamp(s - 1, 0, 4)`, so stride selection 1
picks the first (largest) divisor and yields the maximum number of sample
points per tile — `tileW * tileH` sample points when the divisor equals
`tileW` (as in the raster table at selection 1 on a 256×256 tile) — and a
selection at or beyond the table's upper bound clamps the index into the
table rather than indexing out of range. -/
theorem spacing_selection_amended (sf : ℤ) (h5 : 5 ≤ sf) :
    colorGridDivisors = [256, 128, 64, 32, 16] ∧
    arrowGridDivisors = [16, 8, 4, 2, 1] ∧
    labelGridDivisors = [16, 8, 4, 2, 1] ∧
    divisorIdx labelGridDivisors sf = 4 ∧ divisorOf labelGridDivisors sf = 1 ∧
    divisorIdx colorGridDivisors sf = 4 ∧ divisorOf colorGridDivisors sf = 16 ∧
    (∀ s : ℤ, 0 ≤ divisorIdx labelGridDivisors s ∧ divisorIdx labelGridDivisors s ≤ 4) ∧
    (∀ s : ℤ,
      totalSamples 256 256 labelGridDivisors s ≤ totalSamples 256 256 labelGridDivisors 1) ∧
    (∀ s : ℤ,
      totalSamples 256 256 colorGridDivisors s ≤ totalSamples 256 256 colorGridDivisors 1) ∧
    totalSamples 256 256 colorGridDivisors 1 = 256 * 256 ∧
    totalSamples 256 256 labelGridDivisors 1 = 16 * 16 := by
  have hidx4 : divisorIdx labelGridDivisors sf = 4 := by
    unfold divisorIdx labelGridDivisors
    simp only [List.length_cons, List.length_nil]
    omega
  have hidx4c : divisorIdx colorGridDivisors sf = 4 := by
    unfold divisorIdx colorGridDivisors
    simp only [List.length_cons, List.length_nil]
    omega
  have hlab1 : totalSamples 256 256 labelGridDivisors 1 = 256 :=
    totalSamples_eval _ 1 16 16 16 (by decide) (by norm_num [gridStep, jsRound]) (by decide)
  have hcol1 : totalSamples 256 256 colorGridDivisors 1 = 65536 :=
    totalSamples_eval _ 1 256 1 256 (by decide) (by norm_num [gridStep, jsRound]) (by decide)
  refine ⟨rfl, rfl, rfl, hidx4, ?_, hidx4c, ?_, ?_, ?_, ?_, by rw [hcol1], by rw [hlab1]⟩
  · unfold divisorOf
    rw [hidx4]
    decide
  · unfold divisorOf
    rw [hidx4c]
    decide
  · intro s
    constructor
    · exact le_max_left 0 _
    · unfold divisorIdx labelGridDivisors
      simp only [List.length_cons, List.length_nil]
      omega
  · intro s
    rw [hlab1]
    rcases totalSamples_label_mem s with h | h | h | h | h <;> omega
  · intro s
    rw [hcol1]
    rcases totalSamples_color_mem s with h | h | h | h | h <;> omega

/-- Witness for `spacing_selection_amended` at selection 6 (beyond the table). -/
theorem spacing_selection_amended_witness :
    divisorOf labelGridDivisors 6 = 1 ∧ divisorOf colorGridDivisors 6 = 16 :=
  ⟨(spacing_selection_amended 6 (by norm_num)).2.2.2.2.1,
    (spacing_selection_amended 6 (by norm_num)).2.2.2.2.2.2.1⟩

/-- C9: for every sample point of the vector renderer, the emitted glyph data
is computed as `speed = hypot(u, v)` and `angle = atan2(-v, u)` from the
dequantized components, and the glyph is emitted only when the speed is not
below the configured threshold; when the components dequantize to
`u = 0, v = 0` the speed is `hypot 0 0 = 0`, so the point is skipped for
every positive threshold and emitted (with speed 0) at threshold 0; and
`getVectorAtCoordinate` returns `{u, v, speed, angle}` computed by the same
formulas, or the missing-data signal. -/
theorem arrow_speed_threshold (uGrid vGrid : List (Option ℚ))
    (p : InterpolationParams) (ex : ℚ × ℚ) (t : ℝ) :
    (∀ d : ArrowData, arrowSample uGrid vGrid p ex t = some d →
        d.speed = hypot d.u d.v ∧ d.angle = atan2 (-d.v) d.u ∧ ¬ d.speed < t) ∧
    (∀ uRaw vRaw : ℚ,
        interpolateGridValue uGrid p = some uRaw →
        interpolateGridValue vGrid p = some vRaw →
        dequantize uRaw ex = 0 → dequantize vRaw ex = 0 →
        hypot (((0 : ℚ) : ℝ)) (((0 : ℚ) : ℝ)) = 0 ∧
        (0 < t → arrowSample uGrid vGrid p ex t = none) ∧
        (t = 0 → arrowSample uGrid vGrid p ex t =
            some { u := 0, v := 0, speed := 0, angle := atan2 0 0 })) ∧
    (∀ (tr : ℚ × ℚ → ℚ × ℚ) (width height : ℤ) (e : Extent) (coord : ℚ × ℚ)
        (d : ArrowData),
        getVectorAtCoordinate tr width height e uGrid vGrid ex coord = some d →
        d.speed = hypot d.u d.v ∧ d.angle = atan2 (-d.v) d.u) := by
  refine ⟨?_, ?_, ?_⟩
  · intro d hd
    unfold arrowSample at hd
    rcases h1 : interpolateGridValue uGrid p with _ | uRaw
    · rw [h1] at hd
      cases hd
    · rcases h2 : interpolateGridValue vGrid p with _ | vRaw
      · rw [h1, h2] at hd
        cases hd
      · rw [h1, h2] at hd
        dsimp only at hd
        by_cases hlt :
            hypot ((dequantize uRaw ex : ℚ) : ℝ) ((dequantize vRaw ex : ℚ) : ℝ) < t
        · rw [if_pos hlt] at hd
          cases hd
        · rw [if_neg hlt] at hd
          cases hd
          exact ⟨rfl, rfl, hlt⟩
  · intro uRaw vRaw hu hv hu0 hv0
    refine ⟨by norm_num [hypot], ?_, ?_⟩
    · intro ht
      unfold arrowSample
      rw [hu, hv]
      dsimp only
      have hcond : hypot (((0 : ℚ)) : ℝ) (((0 : ℚ)) : ℝ) < t := by
        simpa [hypot] using ht
      rw [hu0, hv0, if_pos hcond]
    · intro ht
      subst ht
      unfold arrowSample
      rw [hu, hv]
      dsimp only
      rw [hu0, hv0, if_neg (by simp [hypot])]
      simp [hypot]
  · intro tr width height e coord d hd
    unfold getVectorAtCoordinate at hd
    dsimp only at hd
    rcases h1 : interpolateGridValue uGrid
        (createCoordinateCalculator width height e (tr coord).1 (tr coord).2) with _ | ur
    · rw [h1] at hd
      cases hd
    · rcases h2 : interpolateGridValue vGrid
          (createCoordinateCalculator width height e (tr coord).1 (tr coord).2) with _ | vr
      · rw [h1, h2] at hd
        cases hd
      · rw [h1, h2] at hd
        dsimp only at hd
        cases hd
        exact ⟨rfl, rfl⟩

/-- Witness for `arrow_speed_threshold`: a constant zero-vector field
(byte 127.5 over range `[-1, 1]`), threshold 1 — the sample is skipped. -/
theorem arrow_speed_threshold_witness :
    arrowSample [some (255 / 2)] [some (255 / 2)] ⟨0, 0, 0, 0, 0, 0⟩ (-1, 1) 1 = none :=
  ((arrow_speed_threshold [some (255 / 2)] [some (255 / 2)] ⟨0, 0, 0, 0, 0, 0⟩
      (-1, 1) 1).2.1 (255 / 2) (255 / 2)
      (by norm_num [interpolateGridValue, gridRead])
      (by norm_num [interpolateGridValue, gridRead])
      (by norm_num [dequantize]) (by norm_num [dequantize])).2.1 (by norm_num)

/-- A read at a valid index of a grid without sentinel entries is defined. -/
theorem gridRead_total (grid : List (Option ℚ)) (i : ℤ) (h0 : 0 ≤ i)
    (hl : i < (grid.length : ℤ)) (hall : ∀ q ∈ grid, q ≠ none) :
    ∃ a, gridRead grid i = some a := by
  unfold gridRead
  rw [if_pos h0]
  have hlt : i.toNat < grid.length := by omega
  rw [List.getD_eq_getElem grid none hlt]
  rcases hq : grid[i.toNat] with _ | a
  · exact absurd hq (hall _ (List.getElem_mem hlt))
  · exact ⟨a, rfl⟩

/-- Interpolation through the calculator's clamped parameters is total on a
complete grid (length `width * height`, no sentinel entries). -/
theorem interpolateCalc_total (width height : ℤ) (e : Extent) (lon lat : ℚ)
    (grid : List (Option ℚ)) (hw : 1 ≤ width) (hh : 1 ≤ height)
    (hlen : (grid.length : ℤ) = width * height) (hall : ∀ q ∈ grid, q ≠ none) :
    ∃ r, interpolateGridValue grid
      (createCoordinateCalculator width height e lon lat) = some r := by
  obtain ⟨h11, h12, h21, h22, _, _⟩ := calcParams_bounds width height e lon lat hw hh
  obtain ⟨a, ha⟩ := gridRead_total grid _ h11.1 (by omega) hall
  obtain ⟨b, hb⟩ := gridRead_total grid _ h21.1 (by omega) hall
  obtain ⟨c, hc⟩ := gridRead_total grid _ h12.1 (by omega) hall
  obtain ⟨d, hd⟩ := gridRead_total grid _ h22.1 (by omega) hall
  exact ⟨_, interpolate_of_reads grid _ a b c d ha hb hc hd⟩

/-- Every channel emitted by the `LabelGrid` per-channel loop is defined when
each channel grid interpolates to a value and each channel has a range. -/
theorem labelChannels_total (p : InterpolationParams)
    (extremes : Sum (ℚ × ℚ) (List (ℚ × ℚ))) (k : ℕ)
    (ls : List (List (Option ℚ)))
    (hint : ∀ g ∈ ls, interpolateGridValue g p ≠ none)
    (hranges : ∀ j, j < ls.length → labelRangeFor extremes (k + j) ≠ none) :
    ∀ o ∈ labelChannels p extremes k ls, o ≠ none := by
  induction ls generalizing k with
  | nil =>
      intro o ho
      simp [labelChannels] at ho
  | cons g rest ih =>
      intro o ho
      rw [labelChannels] at ho
      rcases List.mem_cons.mp ho with h | h
      · subst h
        rcases hg : interpolateGridValue g p with _ | raw
        · exact absurd hg (hint g (List.mem_cons_self g rest))
        · dsimp only
          rcases hr : labelRangeFor extremes k with _ | range
          · have h0 := hranges 0 (by simp)
            rw [Nat.add_zero] at h0
            exact absurd hr h0
          · simp
      · refine ih (k + 1) (fun g hg => hint g (List.mem_cons_of_mem _ hg))
          (fun j hj => ?_) o h
        have hs := hranges (j + 1) (by simpa using Nat.succ_lt_succ hj)
        rwa [show k + 1 + j = k + (j + 1) by omega]

/-- C10: none of the three point queries consults the extent-containment
predicate.  For every coordinate whose transformed `(lon, lat)` fails the
extent check, each query still computes clamped interpolation parameters and
returns the interpolated value of the nearest edge cells: on complete grids
`ColorGrid.getDataAtCoordinate` and `ArrowGrid.getVectorAtCoordinate` return
a value rather than the missing signal, and every channel of
`LabelGrid.getDataAtCoordinate` is defined — missing data could only arise
from the interpolation itself, never from being out of extent. -/
theorem pointQueries_ignore_extent (tr : ℚ × ℚ → ℚ × ℚ) (width height : ℤ)
    (e : Extent) (colorData uGrid vGrid : List (Option ℚ))
    (labelData : List (List (Option ℚ))) (colorEx : Option (ℚ × ℚ))
    (arrowEx : ℚ × ℚ) (labelEx : Sum (ℚ × ℚ) (List (ℚ × ℚ))) (coord : ℚ × ℚ)
    (hw : 1 ≤ width) (hh : 1 ≤ height)
    (hcLen : (colorData.length : ℤ) = width * height)
    (hcAll : ∀ q ∈ colorData, q ≠ none)
    (huLen : (uGrid.length : ℤ) = width * height)
    (huAll : ∀ q ∈ uGrid, q ≠ none)
    (hvLen : (vGrid.length : ℤ) = width * height)
    (hvAll : ∀ q ∈ vGrid, q ≠ none)
    (hlab : ∀ g ∈ labelData, (g.length : ℤ) = width * height ∧ ∀ q ∈ g, q ≠ none)
    (hranges : ∀ k, k < labelData.length → labelRangeFor labelEx k ≠ none)
    (hout : createCheckExtentFunc e (tr coord).1 (tr coord).2 = false) :
    (∃ v, colorGetDataAtCoordinate tr width height e colorData colorEx coord = some v) ∧
    (∃ d, getVectorAtCoordinate tr width height e uGrid vGrid arrowEx coord = some d) ∧
    (∀ o ∈ labelGetDataAtCoordinate tr width height e labelData labelEx coord,
      o ≠ none) := by
  obtain ⟨rc, hrc⟩ := interpolateCalc_total width height e (tr coord).1 (tr coord).2
    colorData hw hh hcLen hcAll
  obtain ⟨ru, hru⟩ := interpolateCalc_total width height e (tr coord).1 (tr coord).2
    uGrid hw hh huLen huAll
  obtain ⟨rv, hrv⟩ := interpolateCalc_total width height e (tr coord).1 (tr coord).2
    vGrid hw hh hvLen hvAll
  refine ⟨?_, ?_, ?_⟩
  · unfold colorGetDataAtCoordinate colorPointValue
    dsimp only
    rw [hrc]
    rcases colorEx with _ | ex
    · exact ⟨rc, rfl⟩
    · exact ⟨dequantize rc ex, rfl⟩
  · unfold getVectorAtCoordinate
    dsimp only
    rw [hru, hrv]
    exact ⟨_, rfl⟩
  · unfold labelGetDataAtCoordinate
    dsimp only
    refine labelChannels_total _ labelEx 0 labelData (fun g hg => ?_)
      (fun j hj => by simpa using hranges j hj)
    obtain ⟨rg, hrg⟩ := interpolateCalc_total width height e (tr coord).1 (tr coord).2
      g hw hh (hlab g hg).1 (hlab g hg).2
    rw [hrg]
    simp

/-- Witness for `pointQueries_ignore_extent`: a complete 2×2 grid with extent
`[0, 0, 10, 10]` queried at `(100, 100)`, far outside the extent. -/
theorem pointQueries_ignore_extent_witness :
    (∃ v, colorGetDataAtCoordinate (fun c => c) 2 2 ⟨0, 0, 10, 10⟩
        [some 1, some 2, some 3, some 4] none (100, 100) = some v) ∧
    (∃ d, getVectorAtCoordinate (fun c => c) 2 2 ⟨0, 0, 10, 10⟩
        [some 1, some 2, some 3, some 4] [some 1, some 2, some 3, some 4]
        (0, 1) (100, 100) = some d) ∧
    (∀ o ∈ labelGetDataAtCoordinate (fun c => c) 2 2 ⟨0, 0, 10, 10⟩
        [[some 1, some 2, some 3, some 4]] (Sum.inl (0, 1)) (100, 100), o ≠ none) :=
  pointQueries_ignore_extent (fun c => c) 2 2 ⟨0, 0, 10, 10⟩
    [some 1, some 2, some 3, some 4] [some 1, some 2, some 3, some 4]
    [some 1, some 2, some 3, some 4] [[some 1, some 2, some 3, some 4]]
    none (0, 1) (Sum.inl (0, 1)) (100, 100)
    (by norm_num) (by norm_num) (by decide) (by decide) (by decide) (by decide)
    (by decide) (by decide)
    (by intro g hg; rw [List.mem_singleton] at hg; subst hg; exact ⟨by decide, by decide⟩)
    (by intro k hk; simp [labelRangeFor])
    (by decide)
